import Mathlib

/-!
Shallow embedding of the chat backend's request-routing layer: the tRPC
chat router (`sendMessage`, `getConversations`, `getMessages`) together
with the `enforceUserIsAuthed` middleware of `protectedProcedure`.

External collaborators (Supabase storage, the Gemini model gateway, the
image-generation REST endpoint) are modelled as an oracle environment
`Env` whose fields give the outcome of each awaited call site.  The
embedded handlers return, besides the RPC result, the ordered trace of
storage-write requests they issued and the ordered trace of model-gateway
calls they made, so that properties about "what was persisted" and "what
was passed to the model" can be stated directly.
-/

namespace ChatCore

/-! ### JavaScript string primitives

The handlers use `String.prototype.trim`, `toLowerCase`, `startsWith`,
`substring(0, 50)` and one anchored regex replace.  They are modelled at
the character-list level (JS code-unit subtleties outside the BMP and the
full Unicode whitespace class are approximated by `Char.isWhitespace` and
`Char.toLower`, which agree on the ASCII inputs at issue). -/

/-- Truthiness of a JS `string | undefined | null` value: `undefined`,
`null` and the empty string are falsy. -/
def jsTruthy : Option String → Bool
  | none => false
  | some s => s != ""

/-- Models `s.trim()`: strip leading and trailing whitespace. -/
def jsTrim (s : String) : String :=
  String.mk (((s.data.dropWhile Char.isWhitespace).reverse.dropWhile Char.isWhitespace).reverse)

/-- Models `s.toLowerCase()` (ASCII-faithful). -/
def jsToLower (s : String) : String :=
  String.mk (s.data.map Char.toLower)

/-- Models `s.startsWith(pre)`. -/
def jsStartsWith (s pre : String) : Bool :=
  pre.data.isPrefixOf s.data

/-- Models `message.replace(/^\x2fimage\s*\x2f i, '')`: if the string begins
with `/` followed by `image` case-insensitively, remove that token and the
whitespace run after it; otherwise the string is unchanged.  The regex is
anchored at position 0 of the *unmodified* string, so leading whitespace
defeats it. -/
def stripImageToken (s : String) : String :=
  match s.data with
  | '/' :: rest =>
      if (rest.take 5).map Char.toLower = ['i', 'm', 'a', 'g', 'e'] then
        String.mk ((rest.drop 5).dropWhile Char.isWhitespace)
      else s
  | _ => s

/-- One character of the class `[A-Za-z0-9+\x2f=]`. -/
def isBase64Alphabet (c : Char) : Bool :=
  c.isAlphanum || c == '+' || c == '/' || c == '='

/-- Models `/^[A-Za-z0-9+\x2f=]+$/.test(s)`: nonempty and all characters in
the base64 alphabet. -/
def looksLikeBase64 (s : String) : Bool :=
  !(s.data.isEmpty) && s.data.all isBase64Alphabet

/-! ### Data model -/

/-- A row of the `messages` table as the handlers read and write it
(`created_at` is represented by list position: the store keeps rows in
ascending creation order). -/
structure StoredMsg where
  content : String
  role : String
  message_type : String
  user_id : String
  conversation_id : String
  deriving Repr, DecidableEq

/-- A row of the `conversations` table. -/
structure ConvRow where
  id : String
  title : String
  user_id : String
  deriving Repr, DecidableEq

/-- One element of the `contents` array passed to the text model:
`{role, parts: [{text}]}` (the code always sends a single text part). -/
structure Turn where
  role : String
  text : String
  deriving Repr, DecidableEq

/-- `inlineData` of a part of the image-generation REST response; either
field may be absent in the dynamic JSON. -/
structure InlineData where
  mimeType : Option String
  data : Option String
  deriving Repr, DecidableEq

/-- A part of `candidates[0].content.parts` of the image-generation REST
response. -/
structure RespPart where
  inlineData : Option InlineData
  text : Option String
  deriving Repr, DecidableEq

/-- `ctx.session.user` (`sub` may be absent or empty). -/
structure SessionUser where
  sub : Option String
  deriving Repr, DecidableEq

/-- `ctx.session`. -/
structure Session where
  user : Option SessionUser
  deriving Repr, DecidableEq

/-- `ctx.session?.user?.sub` as an optional-chaining read. -/
def sessionSub : Option Session → Option String
  | none => none
  | some sess =>
    match sess.user with
    | none => none
    | some u => u.sub

/-! ### Errors and traces -/

inductive ErrCode where
  | UNAUTHORIZED
  | INTERNAL_SERVER_ERROR
  deriving Repr, DecidableEq

/-- A thrown `TRPCError` (for an `UNAUTHORIZED` error built without a
message, the message defaults to the code's name). -/
structure TRPCErr where
  code : ErrCode
  message : String
  cause : Option String := none
  deriving Repr, DecidableEq

/-- A storage-write request issued to Supabase, in issue order.
`conversation_id` of a message insert is the JS variable
`currentConversationId`, of type `string | undefined`. -/
inductive Write where
  | convInsert (user_id : String) (title : String)
  | msgInsert (content : String) (role : String) (message_type : String)
      (user_id : String) (conversation_id : Option String)
  deriving Repr, DecidableEq

/-- A model-gateway call, in issue order. -/
inductive ModelCall where
  | imageGen (prompt : String)
  | textGenSimple (prompt : String)
  | multiModal (prompt : String) (imageBase64 : String) (mimeType : String)
  | textGen (contents : List Turn)
  deriving Repr, DecidableEq

/-! ### Oracle outcomes of the awaited external calls -/

/-- Outcome of `multiModalModel.generateContent(...)`: the awaited promise
either rejects (thrown) or resolves with generated text. -/
inductive TextGenOutcome where
  | thrown (e : String)
  | ok (text : String)
  deriving Repr, DecidableEq

/-- Outcome of the `fetch` to the image-generation REST endpoint: either
the awaited call throws, or a response arrives with `response.ok` and the
(optionally chained) `candidates?.[0]?.content?.parts` of its JSON body. -/
inductive FetchOutcome where
  | thrown (e : String)
  | resp (ok : Bool) (parts : Option (List RespPart))
  deriving Repr, DecidableEq

/-- Outcome of `conversations.insert(...).select().single()`: thrown, or a
`{data, error}` pair (`convId` is `data.id` when a row is returned). -/
inductive ConvInsertOutcome where
  | thrown (e : String)
  | returned (error : Option String) (convId : Option String)
  deriving Repr, DecidableEq

/-- Outcome of a Supabase `select` query: thrown, or `{data, error}` where
the data, when `error` is absent, is computed from the modelled table. -/
inductive QueryOutcome where
  | thrown (e : String)
  | returned (error : Option String)
  deriving Repr, DecidableEq

/-- Outcome of the user-message `insert` (its `{data, error}` result is not
destructured by the code). -/
inductive UserInsertOutcome where
  | thrown (e : String)
  | returned (error : Option String)
  deriving Repr, DecidableEq

/-- Outcome of the assistant-message `insert(...).select().single()`. -/
inductive AiInsertOutcome where
  | thrown (e : String)
  | returned (error : Option String) (row : Option StoredMsg)
  deriving Repr, DecidableEq

/-- The oracle environment: the stored tables (in ascending `created_at`
order) and the outcome of each awaited external call site. -/
structure Env where
  db : List StoredMsg
  convDb : List ConvRow
  convInsert : ConvInsertOutcome
  historyQuery : QueryOutcome
  imageFetch : FetchOutcome
  textGenChat : TextGenOutcome
  textGenFallback : TextGenOutcome
  textGenVision : TextGenOutcome
  userInsert : UserInsertOutcome
  aiInsert : AiInsertOutcome
  convQuery : QueryOutcome
  msgsQuery : QueryOutcome
  deriving Repr

/-! ### The embedded handlers -/

/-- Input schema of `sendMessage` (all constraints of the zod object:
`message` any string, the other three optional strings). -/
structure SendInput where
  message : String
  conversationId : Option String := none
  imageBase64 : Option String := none
  mimeType : Option String := none
  deriving Repr, DecidableEq

/-- Success result of `sendMessage`. -/
structure SendOutput where
  aiMessage : Option StoredMsg
  conversationId : Option String
  deriving Repr, DecidableEq

/-- Rows produced by the history query of the plain-text branch:
`eq conversation_id`, `eq user_id`, `order created_at ascending`,
`limit 20` — i.e. the first 20 matching rows in ascending creation
order. -/
def historyRows (db : List StoredMsg) (convId userId : String) : List StoredMsg :=
  (db.filter (fun m => m.conversation_id == convId && m.user_id == userId)).take 20

/-- The `conversationParts` array built by the plain-text branch: each
history row of `message_type` `text` becomes a turn with role
`user`/`model`, then the current message is appended as a `user` turn. -/
def toTurns (history : List StoredMsg) (message : String) : List Turn :=
  (history.filterMap (fun m =>
    if m.message_type == "text" then
      some ⟨if m.role == "user" then "user" else "model", m.content⟩
    else none)) ++ [⟨"user", message⟩]

/-- The `find` predicate for an inline image part:
`part.inlineData?.mimeType?.startsWith('image/')`. -/
def imagePartPred (p : RespPart) : Bool :=
  match p.inlineData with
  | some d =>
    match d.mimeType with
    | some m => jsStartsWith m "image/"
    | none => false
  | none => false

/-- `candidates?.[0]?.content?.parts?.find(p => p.text)?.text`. -/
def findTextContent (parts : Option (List RespPart)) : Option String :=
  (parts.bind (fun ps => ps.find? (fun p => jsTruthy p.text))).bind (fun p => p.text)

/-- Interpolation of a JS `string | undefined` into a template literal. -/
def jsShow : Option String → String
  | some s => s
  | none => "undefined"

def unableMsg : String :=
  "I was unable to generate an image. The prompt may have been rejected. Please try again with a different prompt."

/-- Parsing of a successful (`response.ok`) image-generation response body
into `(aiResponseContent, aiMessageType)`: probe for an inline image part,
else for base64-looking text, else fall back to the text or a canned
apology. -/
def classifyImageResponse (parts : Option (List RespPart)) : String × String :=
  match (parts.bind (fun ps => ps.find? imagePartPred)).bind (fun p => p.inlineData) with
  | some d =>
      ("data:" ++ jsShow d.mimeType ++ ";base64," ++ jsShow d.data, "image")
  | none =>
    match findTextContent parts with
    | some t =>
        if t.length > 1000 && looksLikeBase64 (jsTrim t) then
          ("data:image/png;base64," ++ jsTrim t, "image")
        else if t != "" then (t, "text")
        else (unableMsg, "text")
    | none => (unableMsg, "text")

/-- Result of the generation phase (the big `try` block): the three local
variables it assigns. -/
structure GenResult where
  aiResponseContent : String
  aiMessageType : String
  userMessageType : String
  deriving Repr, DecidableEq

def fallbackPrefix : String :=
  "I'm unable to generate an image right now. Here's a response to your prompt: "

/-- The generation phase of `sendMessage` (lines inside the outer `try`):
branch on `/image` command, uploaded image, or plain text; `.error` is an
exception escaping to the outer `catch`, carrying its cause. -/
def generatePhase (env : Env) (userId : String) (currentConversationId : Option String)
    (input : SendInput) : Except String GenResult × List ModelCall :=
  let message := input.message
  let isImageGenerationRequest := jsStartsWith (jsToLower (jsTrim message)) "/image"
  let hasUploadedImage := jsTruthy input.imageBase64 && jsTruthy input.mimeType
  if isImageGenerationRequest then
    let prompt := jsTrim (stripImageToken message)
    let calls₀ := [ModelCall.imageGen prompt]
    -- the inner catch: fall back to a single text-model call about the prompt
    let runFallback : Except String GenResult × List ModelCall :=
      match env.textGenFallback with
      | .thrown e => (.error e, calls₀ ++ [.textGenSimple (fallbackPrefix ++ prompt)])
      | .ok t => (.ok ⟨t, "text", "image_prompt"⟩, calls₀ ++ [.textGenSimple (fallbackPrefix ++ prompt)])
    match env.imageFetch with
    | .thrown _ => runFallback
    | .resp ok parts =>
      if !ok then runFallback
      else
        let (content, ty) := classifyImageResponse parts
        (.ok ⟨content, ty, "image_prompt"⟩, calls₀)
  else if hasUploadedImage then
    let call := [ModelCall.multiModal message (jsShow input.imageBase64) (jsShow input.mimeType)]
    match env.textGenVision with
    | .thrown e => (.error e, call)
    | .ok t => (.ok ⟨t, "text", "image_query"⟩, call)
  else
    -- plain-text branch: load history (a returned query error is swallowed,
    -- leaving the history empty; a thrown one escapes to the outer catch)
    let histRes : Except String (List StoredMsg) :=
      if jsTruthy currentConversationId then
        match env.historyQuery with
        | .thrown e => .error e
        | .returned err =>
          match err with
          | some _ => .ok []
          | none => .ok (historyRows env.db (jsShow currentConversationId) userId)
      else .ok []
    match histRes with
    | .error e => (.error e, [])
    | .ok conversationHistory =>
      let conversationParts := toTurns conversationHistory message
      match env.textGenChat with
      | .thrown e => (.error e, [.textGen conversationParts])
      | .ok t => (.ok ⟨t, "text", "text"⟩, [.textGen conversationParts])

def unauthErr : TRPCErr :=
  ⟨.UNAUTHORIZED, "User not authenticated or missing user ID", none⟩

def internalErr (msg : String) (cause : Option String) : TRPCErr :=
  ⟨.INTERNAL_SERVER_ERROR, msg, cause⟩

/-- The body of the `sendMessage` mutation (after the middleware), returning
the RPC result, the trace of storage-write requests, and the trace of
model-gateway calls. -/
def sendMessageHandler (env : Env) (session : Option Session) (input : SendInput) :
    Except TRPCErr SendOutput × List Write × List ModelCall :=
  if !(jsTruthy (sessionSub session)) then
    (.error unauthErr, [], [])
  else
    let userId := jsShow (sessionSub session)
    -- conversation creation when `currentConversationId` is falsy
    let convStep : Except TRPCErr (Option String) × List Write :=
      if jsTruthy input.conversationId then (.ok input.conversationId, [])
      else
        let title := input.message.take 50
        let w := [Write.convInsert userId title]
        match env.convInsert with
        | .thrown e => (.error (internalErr "Failed to create conversation" (some e)), w)
        | .returned err convId =>
          match err with
          | some e => (.error (internalErr "Failed to create conversation" (some e)), w)
          | none =>
            match convId with
            | none => (.error (internalErr "Failed to create conversation"
                (some "No conversation data returned from Supabase after creation")), w)
            | some cid => (.ok (some cid), w)
    match convStep with
    | (.error err, ws) => (.error err, ws, [])
    | (.ok currentConversationId, ws) =>
      match generatePhase env userId currentConversationId input with
      | (.error cause, calls) =>
          (.error (internalErr "Failed to generate AI response" (some cause)), ws, calls)
      | (.ok g, calls) =>
        -- persistence: user message first; its {data, error} result is ignored
        let userWrite := Write.msgInsert input.message "user" g.userMessageType userId
            currentConversationId
        match env.userInsert with
        | .thrown e =>
            (.error (internalErr "Failed to save messages to the database." (some e)),
              ws ++ [userWrite], calls)
        | .returned _ =>
          let aiWrite := Write.msgInsert g.aiResponseContent "assistant" g.aiMessageType userId
              currentConversationId
          match env.aiInsert with
          | .thrown e =>
              (.error (internalErr "Failed to save messages to the database." (some e)),
                ws ++ [userWrite, aiWrite], calls)
          | .returned err row =>
            match err with
            | some e =>
                (.error (internalErr "Failed to save messages to the database." (some e)),
                  ws ++ [userWrite, aiWrite], calls)
            | none =>
                (.ok ⟨row, currentConversationId⟩, ws ++ [userWrite, aiWrite], calls)

/-- The `enforceUserIsAuthed` middleware of `protectedProcedure`: rejects
when `ctx.session` or `ctx.session.user` is absent (a `TRPCError` built
with only a code carries the code's name as message). -/
def enforceUserIsAuthed (session : Option Session) : Option TRPCErr :=
  match session with
  | none => some ⟨.UNAUTHORIZED, "UNAUTHORIZED", none⟩
  | some s =>
    match s.user with
    | none => some ⟨.UNAUTHORIZED, "UNAUTHORIZED", none⟩
    | some _ => none

/-- `sendMessage` as exposed: middleware, then handler. -/
def sendMessage (env : Env) (session : Option Session) (input : SendInput) :
    Except TRPCErr SendOutput × List Write × List ModelCall :=
  match enforceUserIsAuthed session with
  | some e => (.error e, [], [])
  | none => sendMessageHandler env session input

/-- The body of the `getConversations` query: the caller's conversations,
newest-created first (`order created_at descending` over the ascending
store).  The handler issues no storage writes. -/
def getConversationsHandler (env : Env) (session : Option Session) :
    Except TRPCErr (List ConvRow) × List Write :=
  if !(jsTruthy (sessionSub session)) then (.error unauthErr, [])
  else
    let userId := jsShow (sessionSub session)
    match env.convQuery with
    | .thrown e => (.error (internalErr e (some e)), [])
    | .returned err =>
      match err with
      | some _ => (.error (internalErr "Could not fetch conversations." none), [])
      | none => (.ok ((env.convDb.filter (fun c => c.user_id == userId)).reverse), [])

def getConversations (env : Env) (session : Option Session) :
    Except TRPCErr (List ConvRow) × List Write :=
  match enforceUserIsAuthed session with
  | some e => (.error e, [])
  | none => getConversationsHandler env session

/-- The body of the `getMessages` query: all messages of the conversation
owned by the caller, ascending creation order, no limit, no kind filter.
The handler issues no storage writes. -/
def getMessagesHandler (env : Env) (session : Option Session) (conversationId : String) :
    Except TRPCErr (List StoredMsg) × List Write :=
  if !(jsTruthy (sessionSub session)) then (.error unauthErr, [])
  else
    let userId := jsShow (sessionSub session)
    match env.msgsQuery with
    | .thrown e => (.error (internalErr e (some e)), [])
    | .returned err =>
      match err with
      | some _ => (.error (internalErr "Could not fetch messages." none), [])
      | none =>
        (.ok (env.db.filter (fun m => m.conversation_id == conversationId && m.user_id == userId)),
          [])

def getMessages (env : Env) (session : Option Session) (conversationId : String) :
    Except TRPCErr (List StoredMsg) × List Write :=
  match enforceUserIsAuthed session with
  | some e => (.error e, [])
  | none => getMessagesHandler env session conversationId

/-! ### Concrete fixtures -/

/-- A fully authenticated session with subject claim `u`. -/
def okSession : Option Session := some ⟨some ⟨some "u"⟩⟩

/-- The assistant-message row echoed by a successful assistant insert. -/
def okRow : StoredMsg := ⟨"reply", "assistant", "text", "u", "c"⟩

/-- A benign environment: every collaborator call succeeds. -/
def baseEnv : Env where
  db := []
  convDb := []
  convInsert := .returned none (some "newconv")
  historyQuery := .returned none
  imageFetch := .resp true (some [⟨some ⟨some "image/png", some "IMGDATA"⟩, none⟩])
  textGenChat := .ok "reply"
  textGenFallback := .ok "fallback reply"
  textGenVision := .ok "vision reply"
  userInsert := .returned none
  aiInsert := .returned none (some okRow)
  convQuery := .returned none
  msgsQuery := .returned none

instance {ε α : Type} [DecidableEq ε] [DecidableEq α] : DecidableEq (Except ε α) := fun x y =>
  match x, y with
  | .error a, .error b =>
    if h : a = b then isTrue (by rw [h]) else isFalse (by intro he; cases he; exact h rfl)
  | .error _, .ok _ => isFalse (by intro h; cases h)
  | .ok _, .error _ => isFalse (by intro h; cases h)
  | .ok a, .ok b =>
    if h : a = b then isTrue (by rw [h]) else isFalse (by intro he; cases he; exact h rfl)

/-- The error code of an RPC outcome, when it failed. -/
def errCode {α : Type} : Except TRPCErr α → Option ErrCode
  | .error e => some e.code
  | .ok _ => none

end ChatCore

namespace ChatCore

/-! ### C1: which 20 prior messages reach the model context -/

/-- A conversation of the caller with 21 prior text messages, contents
`0` … `20` in ascending creation order (`20` is the most recent). -/
def c1db : List StoredMsg :=
  (List.range 21).map (fun i => ⟨toString i, "user", "text", "u", "c"⟩)

def c1env : Env := { baseEnv with db := c1db }

/-- C1: the claim says a conversation with more than 20 prior text messages
contributes exactly the 20 most recent ones (here `1` … `20`).  Evaluating
the embedded handler on 21 prior text messages shows the dialogue passed to
the text model instead holds the *oldest* twenty, `0` … `19` (the query
orders ascending and then limits to 20), and the most recent message `20`
is absent. -/
theorem C1_context_is_oldest_twenty :
    (sendMessage c1env okSession ⟨"hello", some "c", none, none⟩).2.2 =
      [ModelCall.textGen
        (((List.range 20).map (fun i => ⟨"user", toString i⟩)) ++ [⟨"user", "hello"⟩])] ∧
    (⟨"user", "20"⟩ : Turn) ∉ toTurns (historyRows c1db "c" "u") "hello" := by
  decide

/-! ### C9: an empty message is not rejected -/

/-- C9 counterexample: the claim says an empty message fails with an
`InvalidInput` error before model invocation and persistence.  The input
schema is a bare `z.string()`, so the empty message flows through the
plain-text branch: the call succeeds, the model is invoked with the empty
turn, and both rows are persisted. -/
theorem C9_empty_message_not_rejected :
    (sendMessage baseEnv okSession ⟨"", some "c", none, none⟩).1 = .ok ⟨some okRow, some "c"⟩ ∧
    (sendMessage baseEnv okSession ⟨"", some "c", none, none⟩).2.2 =
      [ModelCall.textGen [⟨"user", ""⟩]] ∧
    (sendMessage baseEnv okSession ⟨"", some "c", none, none⟩).2.1 =
      [.msgInsert "" "user" "text" "u" (some "c"),
       .msgInsert "reply" "assistant" "text" "u" (some "c")] := by
  decide

def c9env (t : String) : Env := { baseEnv with textGenChat := .ok t }

/-- C9 amended: an empty message passes validation and proceeds through the
plain-text branch to model invocation and persistence; with benign
collaborators the call succeeds, whatever text the model returns. -/
theorem C9_empty_message_proceeds (t : String) :
    (sendMessage (c9env t) okSession ⟨"", some "c", none, none⟩).1 = .ok ⟨some okRow, some "c"⟩ ∧
    (sendMessage (c9env t) okSession ⟨"", some "c", none, none⟩).2.2 =
      [ModelCall.textGen [⟨"user", ""⟩]] ∧
    (sendMessage (c9env t) okSession ⟨"", some "c", none, none⟩).2.1 =
      [.msgInsert "" "user" "text" "u" (some "c"),
       .msgInsert t "assistant" "text" "u" (some "c")] :=
  ⟨rfl, rfl, rfl⟩

/-! ### C5: failure semantics of the two message writes -/

def c5envIgnored : Env := { baseEnv with userInsert := .returned (some "user insert rejected") }

/-- C5 counterexample: the claim says a storage-layer error on the
user-message write cannot result in a success response.  The code never
destructures the first insert's `{data, error}` result, so with the user
insert returning an error and the assistant insert succeeding, the call
returns success. -/
theorem C5_user_write_error_still_succeeds :
    (sendMessage c5envIgnored okSession ⟨"hi", some "c", none, none⟩).1 =
      .ok ⟨some okRow, some "c"⟩ ∧
    (sendMessage c5envIgnored okSession ⟨"hi", some "c", none, none⟩).2.1 =
      [.msgInsert "hi" "user" "text" "u" (some "c"),
       .msgInsert "reply" "assistant" "text" "u" (some "c")] := by
  decide

def c5env (uo : UserInsertOutcome) (ao : AiInsertOutcome) : Env :=
  { baseEnv with userInsert := uo, aiInsert := ao }

/-- C5 amended: an exception thrown by either message write, and an error
returned by the assistant-message write, surface as an internal failure
carrying the underlying cause; but an error merely returned (not thrown)
by the user-message write is ignored, and the call still succeeds when the
assistant write succeeds. -/
theorem C5_persistence_failure_semantics (eu ea : String) :
    ((sendMessage (c5env (.thrown eu) (.returned none (some okRow)))
        okSession ⟨"hi", some "c", none, none⟩).1 =
      .error (internalErr "Failed to save messages to the database." (some eu))) ∧
    ((sendMessage (c5env (.returned none) (.thrown ea))
        okSession ⟨"hi", some "c", none, none⟩).1 =
      .error (internalErr "Failed to save messages to the database." (some ea))) ∧
    ((sendMessage (c5env (.returned none) (.returned (some ea) none))
        okSession ⟨"hi", some "c", none, none⟩).1 =
      .error (internalErr "Failed to save messages to the database." (some ea))) ∧
    ((sendMessage (c5env (.returned (some eu)) (.returned none (some okRow)))
        okSession ⟨"hi", some "c", none, none⟩).1 =
      .ok ⟨some okRow, some "c"⟩) :=
  ⟨rfl, rfl, rfl, rfl⟩

/-! ### C10: a returned history-query error is swallowed -/

def c10env (db : List StoredMsg) (e : String) : Env :=
  { baseEnv with db := db, historyQuery := .returned (some e) }

/-- C10: when the storage read of conversation history returns an error,
the plain-text request does not fail: the error is swallowed and the text
model is invoked with an empty history — the dialogue is the new message
as a single user turn — and the call succeeds. -/
theorem C10_history_error_swallowed (db : List StoredMsg) (e message : String)
    (h : jsStartsWith (jsToLower (jsTrim message)) "/image" = false) :
    (sendMessage (c10env db e) okSession ⟨message, some "c", none, none⟩).1 =
      .ok ⟨some okRow, some "c"⟩ ∧
    (sendMessage (c10env db e) okSession ⟨message, some "c", none, none⟩).2.2 =
      [ModelCall.textGen [⟨"user", message⟩]] := by
  constructor <;>
    simp [sendMessage, enforceUserIsAuthed, okSession, sendMessageHandler, generatePhase,
      c10env, baseEnv, sessionSub, jsTruthy, jsShow, h, toTurns, internalErr]

/-- C10 witness: a concrete instance of the swallowed history error. -/
theorem C10_history_error_swallowed_witness :
    (jsStartsWith (jsToLower (jsTrim "hello")) "/image" = false) ∧
    ((sendMessage (c10env [okRow] "boom") okSession ⟨"hello", some "c", none, none⟩).1 =
      .ok ⟨some okRow, some "c"⟩ ∧
     (sendMessage (c10env [okRow] "boom") okSession ⟨"hello", some "c", none, none⟩).2.2 =
      [ModelCall.textGen [⟨"user", "hello"⟩]]) :=
  ⟨by decide, C10_history_error_swallowed [okRow] "boom" "hello" (by decide)⟩

/-! ### C4: no valid caller identity -/

/-- C4: with no valid caller identity (no session, no user object, or a
missing/empty subject claim), each of `sendMessage`, `getConversations` and
`getMessages` fails with an `UNAUTHORIZED` error and issues no storage
writes, for every environment and input. -/
theorem C4_unauthenticated_rejected (env : Env) (input : SendInput) (cid : String)
    (session : Option Session) (h : jsTruthy (sessionSub session) = false) :
    (errCode (sendMessage env session input).1 = some .UNAUTHORIZED ∧
      (sendMessage env session input).2.1 = []) ∧
    (errCode (getConversations env session).1 = some .UNAUTHORIZED ∧
      (getConversations env session).2 = []) ∧
    (errCode (getMessages env session cid).1 = some .UNAUTHORIZED ∧
      (getMessages env session cid).2 = []) := by
  rcases session with _ | ⟨_ | u⟩
  · exact ⟨⟨rfl, rfl⟩, ⟨rfl, rfl⟩, ⟨rfl, rfl⟩⟩
  · exact ⟨⟨rfl, rfl⟩, ⟨rfl, rfl⟩, ⟨rfl, rfl⟩⟩
  · simp [sendMessage, getConversations, getMessages, enforceUserIsAuthed,
      sendMessageHandler, getConversationsHandler, getMessagesHandler, h,
      errCode, unauthErr]

/-- C4 witness: the absent-session instance. -/
theorem C4_unauthenticated_rejected_witness :
    jsTruthy (sessionSub none) = false ∧
    ((errCode (sendMessage baseEnv none ⟨"hi", none, none, none⟩).1 = some .UNAUTHORIZED ∧
      (sendMessage baseEnv none ⟨"hi", none, none, none⟩).2.1 = []) ∧
    (errCode (getConversations baseEnv none).1 = some .UNAUTHORIZED ∧
      (getConversations baseEnv none).2 = []) ∧
    (errCode (getMessages baseEnv none "c").1 = some .UNAUTHORIZED ∧
      (getMessages baseEnv none "c").2 = [])) :=
  ⟨by decide, C4_unauthenticated_rejected baseEnv ⟨"hi", none, none, none⟩ "c" none (by decide)⟩

/-! ### C8: image-generation failure falls back to one text call -/

def c8env (e : String) (fo : TextGenOutcome) : Env :=
  { baseEnv with imageFetch := .thrown e, textGenFallback := fo }

/-- C8: when the image-generation call throws, the handler makes exactly one
fallback text-generation call whose prompt embeds the failed image prompt;
if the fallback succeeds the assistant result is recorded with kind `text`,
and only if the fallback also throws does the call fail, with the upstream
generation error.  The model-call trace holds exactly the two calls, so no
other automatic retry exists. -/
theorem C8_image_error_single_fallback (message e t e2 : String) (fo : TextGenOutcome)
    (hb : jsStartsWith (jsToLower (jsTrim message)) "/image" = true) :
    ((sendMessage (c8env e fo) okSession ⟨message, some "c", none, none⟩).2.2 =
      [ModelCall.imageGen (jsTrim (stripImageToken message)),
       ModelCall.textGenSimple (fallbackPrefix ++ jsTrim (stripImageToken message))]) ∧
    (fo = .ok t →
      (sendMessage (c8env e fo) okSession ⟨message, some "c", none, none⟩).1 =
        .ok ⟨some okRow, some "c"⟩ ∧
      (sendMessage (c8env e fo) okSession ⟨message, some "c", none, none⟩).2.1 =
        [.msgInsert message "user" "image_prompt" "u" (some "c"),
         .msgInsert t "assistant" "text" "u" (some "c")]) ∧
    (fo = .thrown e2 →
      (sendMessage (c8env e fo) okSession ⟨message, some "c", none, none⟩).1 =
        .error (internalErr "Failed to generate AI response" (some e2)) ∧
      (sendMessage (c8env e fo) okSession ⟨message, some "c", none, none⟩).2.1 = []) := by
  cases fo <;>
    refine ⟨?_, ?_, ?_⟩ <;>
    simp_all [sendMessage, enforceUserIsAuthed, okSession, sendMessageHandler, generatePhase,
      c8env, baseEnv, sessionSub, jsTruthy, jsShow, internalErr]

/-- C8 witness: a concrete failed image generation with a succeeding and a
failing fallback. -/
theorem C8_image_error_single_fallback_witness :
    jsStartsWith (jsToLower (jsTrim "/image a cat")) "/image" = true ∧
    (((sendMessage (c8env "img down" (.ok "sorry")) okSession
        ⟨"/image a cat", some "c", none, none⟩).2.2 =
      [ModelCall.imageGen (jsTrim (stripImageToken "/image a cat")),
       ModelCall.textGenSimple (fallbackPrefix ++ jsTrim (stripImageToken "/image a cat"))]) ∧
    ((.ok "sorry" : TextGenOutcome) = .ok "sorry" →
      (sendMessage (c8env "img down" (.ok "sorry")) okSession
          ⟨"/image a cat", some "c", none, none⟩).1 =
        .ok ⟨some okRow, some "c"⟩ ∧
      (sendMessage (c8env "img down" (.ok "sorry")) okSession
          ⟨"/image a cat", some "c", none, none⟩).2.1 =
        [.msgInsert "/image a cat" "user" "image_prompt" "u" (some "c"),
         .msgInsert "sorry" "assistant" "text" "u" (some "c")]) ∧
    ((.ok "sorry" : TextGenOutcome) = .thrown "also down" →
      (sendMessage (c8env "img down" (.ok "sorry")) okSession
          ⟨"/image a cat", some "c", none, none⟩).1 =
        .error (internalErr "Failed to generate AI response" (some "also down")) ∧
      (sendMessage (c8env "img down" (.ok "sorry")) okSession
          ⟨"/image a cat", some "c", none, none⟩).2.1 = [])) :=
  ⟨by decide,
    C8_image_error_single_fallback "/image a cat" "img down" "sorry" "also down"
      (.ok "sorry") (by decide)⟩

/-! ### C6: absent conversationId creates exactly one conversation first -/

def isConvInsert : Write → Bool
  | .convInsert _ _ => true
  | _ => false

/-- The `conversation_id` a message-insert request carries, if the write is
a message insert. -/
def msgInsertConvId : Write → Option (Option String)
  | .msgInsert _ _ _ _ cid => some cid
  | _ => none

/-- The id of the conversation a successful conversation insert returns. -/
def createdConvId (env : Env) : Option String :=
  match env.convInsert with
  | .returned none (some cid) => some cid
  | _ => none

/-- C6: for every call with an absent `conversationId` and a valid caller,
the first storage write is the single conversation insert, owned by the
caller's subject claim and titled with the first 50 characters of the
message; no other conversation insert occurs, and every message insert in
the trace carries the id the conversation insert returned. -/
theorem C6_new_conversation_first (env : Env) (session : Option Session) (input : SendInput)
    (hs : jsTruthy (sessionSub session) = true) (hc : input.conversationId = none) :
    (sendMessage env session input).2.1.head? =
      some (.convInsert (jsShow (sessionSub session)) (input.message.take 50)) ∧
    ((sendMessage env session input).2.1.countP isConvInsert = 1) ∧
    (∀ w ∈ (sendMessage env session input).2.1, ∀ cid, msgInsertConvId w = some cid →
      cid = createdConvId env) := by
  rcases session with _ | ⟨_ | u⟩
  · simp [sessionSub, jsTruthy] at hs
  · simp [sessionSub, jsTruthy] at hs
  · have hnone : jsTruthy (none : Option String) = false := rfl
    simp only [sendMessage, enforceUserIsAuthed, sendMessageHandler, hs, hc, hnone,
      Bool.not_true, Bool.false_eq_true, if_false]
    cases h1 : env.convInsert with
    | thrown e =>
        simp [isConvInsert, msgInsertConvId, createdConvId, h1]
    | returned err convId =>
      cases err with
      | some e => simp [isConvInsert, msgInsertConvId, createdConvId, h1]
      | none =>
        cases convId with
        | none => simp [isConvInsert, msgInsertConvId, createdConvId, h1]
        | some cid =>
          simp only []
          cases hg : generatePhase env (jsShow (sessionSub (some ⟨some u⟩))) (some cid) input with
          | mk res calls =>
            cases res with
            | error cause => simp [isConvInsert, msgInsertConvId, createdConvId, h1]
            | ok g =>
              cases h2 : env.userInsert with
              | thrown e => simp [isConvInsert, msgInsertConvId, createdConvId, h1]
              | returned uerr =>
                cases h3 : env.aiInsert with
                | thrown e => simp [isConvInsert, msgInsertConvId, createdConvId, h1]
                | returned aerr row =>
                  cases aerr with
                  | some e => simp [isConvInsert, msgInsertConvId, createdConvId, h1]
                  | none => simp [isConvInsert, msgInsertConvId, createdConvId, h1]

/-- C6 witness: a concrete new-conversation call. -/
theorem C6_new_conversation_first_witness :
    (jsTruthy (sessionSub okSession) = true ∧
      (⟨"hello world", none, none, none⟩ : SendInput).conversationId = none) ∧
    ((sendMessage baseEnv okSession ⟨"hello world", none, none, none⟩).2.1.head? =
      some (.convInsert (jsShow (sessionSub okSession)) ((("hello world" : String)).take 50)) ∧
    ((sendMessage baseEnv okSession ⟨"hello world", none, none, none⟩).2.1.countP isConvInsert = 1) ∧
    (∀ w ∈ (sendMessage baseEnv okSession ⟨"hello world", none, none, none⟩).2.1,
      ∀ cid, msgInsertConvId w = some cid → cid = createdConvId baseEnv)) :=
  ⟨⟨by decide, rfl⟩,
    (C6_new_conversation_first baseEnv okSession ⟨"hello world", none, none, none⟩
      (by decide) rfl).imp id (fun h => h)⟩

/-! ### Character and trimming lemmas -/

lemma toLower_of_isWhitespace (c : Char) (h : c.isWhitespace = true) : c.toLower = c := by
  simp [Char.isWhitespace] at h
  rcases h with ((h | h) | h) | h <;> subst h <;> decide

lemma isBase64Alphabet_not_whitespace (c : Char) (h : isBase64Alphabet c = true) :
    c.isWhitespace = false := by
  cases hw : c.isWhitespace with
  | false => rfl
  | true =>
    simp [Char.isWhitespace] at hw
    rcases hw with ((h1 | h1) | h1) | h1 <;> subst h1 <;> exact absurd h (by decide)

lemma dropWhile_ws_eq_self (l : List Char) (h : ∀ c ∈ l, c.isWhitespace = false) :
    l.dropWhile Char.isWhitespace = l := by
  cases l with
  | nil => rfl
  | cons a t => simp [List.dropWhile_cons, h a (List.mem_cons_self a t)]

lemma jsTrim_eq_self (s : String) (h : ∀ c ∈ s.data, c.isWhitespace = false) :
    jsTrim s = s := by
  unfold jsTrim
  rw [dropWhile_ws_eq_self s.data h,
    dropWhile_ws_eq_self s.data.reverse (fun c hc => h c (List.mem_reverse.mp hc)),
    List.reverse_reverse]

lemma dropWhile_append_fixed (p : Char → Bool) (xs ys : List Char)
    (h : ys.dropWhile p = ys) :
    (xs ++ ys).dropWhile p = xs.dropWhile p ++ ys := by
  rw [List.dropWhile_append]
  split
  case isTrue h1 => rw [List.isEmpty_iff] at h1; rw [h1, List.nil_append, h]
  case isFalse h1 => rfl

/-! ### C7: inline image payloads and the base64-text fallback -/

def c7envA (parts : List RespPart) : Env :=
  { baseEnv with imageFetch := .resp true (some parts) }

def c7envB (t : String) : Env :=
  { baseEnv with imageFetch := .resp true (some [⟨none, some t⟩]) }

/-- C7: when the image-generation response yields an inline image payload
with mime type `m` and base64 data `d`, the persisted assistant message is
exactly `data:m;base64,d` with kind `image`; and when the response instead
holds only text longer than 1000 characters drawn from the base64
alphabet, that text is persisted as an image payload
(`data:image/png;base64,` prefix, kind `image`). -/
theorem C7_image_payload_encoding (parts : List RespPart) (m d t : String)
    (h1 : (parts.find? imagePartPred).bind (fun p => p.inlineData) = some ⟨some m, some d⟩)
    (h2 : t.length > 1000)
    (h3 : t.data.all isBase64Alphabet = true) :
    ((sendMessage (c7envA parts) okSession ⟨"/image x", some "c", none, none⟩).2.1 =
      [.msgInsert "/image x" "user" "image_prompt" "u" (some "c"),
       .msgInsert ("data:" ++ m ++ ";base64," ++ d) "assistant" "image" "u" (some "c")]) ∧
    ((sendMessage (c7envB t) okSession ⟨"/image x", some "c", none, none⟩).2.1 =
      [.msgInsert "/image x" "user" "image_prompt" "u" (some "c"),
       .msgInsert ("data:image/png;base64," ++ t) "assistant" "image" "u" (some "c")]) := by
  have hcond : jsStartsWith (jsToLower (jsTrim "/image x")) "/image" = true := by decide
  have htne : t ≠ "" := by
    intro he
    rw [he] at h2
    exact absurd h2 (by decide)
  have hbne : (t != "") = true := bne_iff_ne.mpr htne
  have hjt : jsTrim t = t :=
    jsTrim_eq_self t (fun c hc => isBase64Alphabet_not_whitespace c (List.all_eq_true.mp h3 c hc))
  have hlb : looksLikeBase64 t = true := by
    unfold looksLikeBase64
    rw [h3, Bool.and_true]
    have h0 : 0 < t.data.length := Nat.lt_trans (by norm_num) h2
    cases hdata : t.data with
    | nil => rw [hdata] at h0; exact absurd h0 (by norm_num)
    | cons a l => rfl
  have hgt : decide (t.length > 1000) = true := decide_eq_true h2
  constructor
  · simp [sendMessage, enforceUserIsAuthed, okSession, sendMessageHandler, generatePhase,
      c7envA, baseEnv, classifyImageResponse, sessionSub, jsTruthy, jsShow, h1, hcond,
      Option.some_bind]
  · simp [sendMessage, enforceUserIsAuthed, okSession, sendMessageHandler, generatePhase,
      c7envB, baseEnv, classifyImageResponse, findTextContent, imagePartPred, sessionSub,
      jsTruthy, jsShow, hcond, hbne, hlb, hgt, hjt, List.find?_cons, Option.some_bind]

set_option maxRecDepth 100000 in
/-- C7 witness: a concrete inline payload and a concrete 1001-character
base64 text. -/
theorem C7_image_payload_encoding_witness :
    ((([⟨some ⟨some "image/png", some "QUFB"⟩, none⟩] : List RespPart).find?
        imagePartPred).bind (fun p => p.inlineData) = some ⟨some "image/png", some "QUFB"⟩ ∧
      (String.mk (List.replicate 1001 'A')).length > 1000 ∧
      (String.mk (List.replicate 1001 'A')).data.all isBase64Alphabet = true) ∧
    (((sendMessage (c7envA [⟨some ⟨some "image/png", some "QUFB"⟩, none⟩]) okSession
        ⟨"/image x", some "c", none, none⟩).2.1 =
      [.msgInsert "/image x" "user" "image_prompt" "u" (some "c"),
       .msgInsert ("data:" ++ "image/png" ++ ";base64," ++ "QUFB") "assistant" "image" "u"
         (some "c")]) ∧
    ((sendMessage (c7envB (String.mk (List.replicate 1001 'A'))) okSession
        ⟨"/image x", some "c", none, none⟩).2.1 =
      [.msgInsert "/image x" "user" "image_prompt" "u" (some "c"),
       .msgInsert ("data:image/png;base64," ++ String.mk (List.replicate 1001 'A'))
         "assistant" "image" "u" (some "c")])) :=
  ⟨⟨by decide, by decide, by decide⟩,
    C7_image_payload_encoding [⟨some ⟨some "image/png", some "QUFB"⟩, none⟩]
      "image/png" "QUFB" (String.mk (List.replicate 1001 'A'))
      (by decide) (by decide) (by decide)⟩

/-! ### C3: dialogue for short histories -/

def c3env (hist : List StoredMsg) : Env := { baseEnv with db := hist }

lemma toTurns_eq_map_filter (l : List StoredMsg) (message : String) :
    toTurns l message =
      ((l.filter (fun m => m.message_type == "text")).map
        (fun m => (⟨if m.role == "user" then "user" else "model", m.content⟩ : Turn)))
      ++ [⟨"user", message⟩] := by
  unfold toTurns
  congr 1
  induction l with
  | nil => rfl
  | cons a tl ih =>
    rw [List.filterMap_cons, List.filter_cons]
    cases h : (a.message_type == "text") <;> simp [h] at ih ⊢ <;> simp [ih]

/-- C3: a plain-text message on a conversation whose prior messages all
belong to the caller and number at most 20 passes the model exactly the
prior text turns, in chronological order, with role `user` mapped to
`user` and anything else (i.e. `assistant`) mapped to `model`, followed by
the new message as a final user turn. -/
theorem C3_dialogue_short_history (hist : List StoredMsg) (message : String)
    (hlen : hist.length ≤ 20)
    (hown : ∀ m ∈ hist, (m.conversation_id == "c" && m.user_id == "u") = true)
    (hni : jsStartsWith (jsToLower (jsTrim message)) "/image" = false) :
    (sendMessage (c3env hist) okSession ⟨message, some "c", none, none⟩).2.2 =
      [ModelCall.textGen
        (((hist.filter (fun m => m.message_type == "text")).map
          (fun m => ⟨if m.role == "user" then "user" else "model", m.content⟩))
        ++ [⟨"user", message⟩])] := by
  have hrows : historyRows hist "c" "u" = hist := by
    unfold historyRows
    rw [List.filter_eq_self.mpr hown, List.take_of_length_le hlen]
  simp [sendMessage, enforceUserIsAuthed, okSession, sendMessageHandler, generatePhase,
    c3env, baseEnv, sessionSub, jsTruthy, jsShow, hni, hrows, toTurns_eq_map_filter]

/-- C3 witness: a three-message history (a user text turn, an assistant
text turn, and an image turn that is filtered out). -/
theorem C3_dialogue_short_history_witness :
    (([⟨"q", "user", "text", "u", "c"⟩, ⟨"a", "assistant", "text", "u", "c"⟩,
        ⟨"p", "assistant", "image", "u", "c"⟩] : List StoredMsg).length ≤ 20 ∧
      (∀ m ∈ ([⟨"q", "user", "text", "u", "c"⟩, ⟨"a", "assistant", "text", "u", "c"⟩,
        ⟨"p", "assistant", "image", "u", "c"⟩] : List StoredMsg),
        (m.conversation_id == "c" && m.user_id == "u") = true) ∧
      jsStartsWith (jsToLower (jsTrim "next")) "/image" = false) ∧
    (sendMessage (c3env [⟨"q", "user", "text", "u", "c"⟩, ⟨"a", "assistant", "text", "u", "c"⟩,
        ⟨"p", "assistant", "image", "u", "c"⟩]) okSession ⟨"next", some "c", none, none⟩).2.2 =
      [ModelCall.textGen
        (((([⟨"q", "user", "text", "u", "c"⟩, ⟨"a", "assistant", "text", "u", "c"⟩,
          ⟨"p", "assistant", "image", "u", "c"⟩] : List StoredMsg).filter
            (fun m => m.message_type == "text")).map
          (fun m => ⟨if m.role == "user" then "user" else "model", m.content⟩))
        ++ [⟨"user", "next"⟩])] :=
  ⟨⟨by decide, by decide, by decide⟩,
    C3_dialogue_short_history
      [⟨"q", "user", "text", "u", "c"⟩, ⟨"a", "assistant", "text", "u", "c"⟩,
        ⟨"p", "assistant", "image", "u", "c"⟩] "next"
      (by decide) (by decide) (by decide)⟩

/-! ### C2: the `/image` token strip -/

/-- C2 counterexample: the claim includes inputs with arbitrary leading
whitespace, but the strip regex is anchored at position 0 of the
unmodified message, so for `" /image cat"` (one leading space) the image
branch fires and the user message is recorded with kind `image_prompt`,
yet the prompt sent to image generation is `"/image cat"` — the token is
not removed — instead of `"cat"`. -/
theorem C2_leading_whitespace_keeps_token :
    (sendMessage baseEnv okSession ⟨" /image cat", some "c", none, none⟩).2.2 =
      [ModelCall.imageGen "/image cat"] ∧
    (sendMessage baseEnv okSession ⟨" /image cat", some "c", none, none⟩).2.1.head? =
      some (.msgInsert " /image cat" "user" "image_prompt" "u" (some "c")) ∧
    "/image cat" ≠ "cat" := by
  decide

lemma stripImageToken_token_prefix (cs rest : List Char)
    (hcs : cs.map Char.toLower = ['i', 'm', 'a', 'g', 'e']) :
    stripImageToken (String.mk ('/' :: (cs ++ rest))) =
      String.mk (rest.dropWhile Char.isWhitespace) := by
  have hlen : cs.length = 5 := by
    have h := congrArg List.length hcs
    simpa using h
  have h1 : stripImageToken (String.mk ('/' :: (cs ++ rest))) =
      if ((cs ++ rest).take 5).map Char.toLower = ['i', 'm', 'a', 'g', 'e'] then
        String.mk (((cs ++ rest).drop 5).dropWhile Char.isWhitespace)
      else String.mk ('/' :: (cs ++ rest)) := rfl
  rw [h1, List.take_left' hlen, List.drop_left' hlen, if_pos hcs]

lemma not_ws_of_token_char (cs : List Char)
    (hcs : cs.map Char.toLower = ['i', 'm', 'a', 'g', 'e']) :
    ∀ c ∈ cs, c.isWhitespace = false := by
  intro c hc
  cases hw : c.isWhitespace with
  | false => rfl
  | true =>
    have h1 : c.toLower ∈ (['i', 'm', 'a', 'g', 'e'] : List Char) := by
      rw [← hcs]
      exact List.mem_map_of_mem Char.toLower hc
    rw [toLower_of_isWhitespace c hw] at h1
    simp only [List.mem_cons, List.not_mem_nil, or_false] at h1
    rcases h1 with h1 | h1 | h1 | h1 | h1 <;> subst h1 <;> exact absurd hw (by decide)

lemma image_branch_of_token (cs rest : List Char)
    (hcs : cs.map Char.toLower = ['i', 'm', 'a', 'g', 'e']) :
    jsStartsWith (jsToLower (jsTrim (String.mk ('/' :: (cs ++ rest))))) "/image" = true := by
  have hnws := not_ws_of_token_char cs hcs
  have hfront : ('/' :: (cs ++ rest)).dropWhile Char.isWhitespace = '/' :: (cs ++ rest) := by
    simp [List.dropWhile_cons]
  have hysfix : (cs.reverse ++ ['/']).dropWhile Char.isWhitespace = cs.reverse ++ ['/'] :=
    dropWhile_ws_eq_self _ (by
      intro c hc
      rcases List.mem_append.mp hc with h | h
      · exact hnws c (List.mem_reverse.mp h)
      · simp only [List.mem_singleton] at h
        subst h
        decide)
  have hrev : ('/' :: (cs ++ rest)).reverse = rest.reverse ++ (cs.reverse ++ ['/']) := by
    rw [List.reverse_cons, List.reverse_append]
    simp [List.append_assoc]
  have hdrop : (('/' :: (cs ++ rest)).reverse).dropWhile Char.isWhitespace =
      (rest.reverse.dropWhile Char.isWhitespace) ++ (cs.reverse ++ ['/']) := by
    rw [hrev, dropWhile_append_fixed _ _ _ hysfix]
  have htrim : jsTrim (String.mk ('/' :: (cs ++ rest))) =
      String.mk (('/' :: cs) ++ (rest.reverse.dropWhile Char.isWhitespace).reverse) := by
    unfold jsTrim
    rw [show (String.mk ('/' :: (cs ++ rest))).data = '/' :: (cs ++ rest) from rfl]
    rw [hfront, hdrop, List.reverse_append, List.reverse_append]
    simp [List.reverse_reverse]
  rw [htrim]
  unfold jsToLower jsStartsWith
  rw [show (String.mk (('/' :: cs) ++ (rest.reverse.dropWhile Char.isWhitespace).reverse)).data
      = ('/' :: cs) ++ (rest.reverse.dropWhile Char.isWhitespace).reverse from rfl]
  rw [List.map_append]
  have hmap : (('/' :: cs).map Char.toLower) = '/' :: ['i', 'm', 'a', 'g', 'e'] := by
    rw [List.map_cons, hcs]
    decide
  rw [hmap]
  rw [show ("/image" : String).data = ['/', 'i', 'm', 'a', 'g', 'e'] from rfl]
  rw [List.isPrefixOf_iff_prefix]
  exact List.prefix_append _ _

/-- C2 amended: for every message whose very first characters are `/`
followed by the token `image` in any casing (no leading whitespace), the
user message is recorded with kind `image_prompt` and the image-generation
prompt is the remainder after the token with the whitespace following the
token removed and trailing whitespace trimmed.  (With leading whitespace
the branch still fires with kind `image_prompt`, but the anchored replace
leaves the token in place.) -/
theorem C2_image_token_strip (cs rest : List Char)
    (hcs : cs.map Char.toLower = ['i', 'm', 'a', 'g', 'e']) :
    (sendMessage baseEnv okSession
        ⟨String.mk ('/' :: (cs ++ rest)), some "c", none, none⟩).2.2 =
      [ModelCall.imageGen (jsTrim (String.mk (rest.dropWhile Char.isWhitespace)))] ∧
    (sendMessage baseEnv okSession
        ⟨String.mk ('/' :: (cs ++ rest)), some "c", none, none⟩).2.1.head? =
      some (.msgInsert (String.mk ('/' :: (cs ++ rest))) "user" "image_prompt" "u"
        (some "c")) := by
  have hb := image_branch_of_token cs rest hcs
  have hstrip := stripImageToken_token_prefix cs rest hcs
  have hclass : classifyImageResponse (some [⟨some ⟨some "image/png", some "IMGDATA"⟩, none⟩]) =
      ("data:image/png;base64,IMGDATA", "image") := by decide
  constructor <;>
    simp [sendMessage, enforceUserIsAuthed, okSession, sendMessageHandler, generatePhase,
      baseEnv, sessionSub, jsTruthy, jsShow, hb, hstrip, hclass]

/-- C2 witness: a mixed-case token and a whitespace-padded prompt. -/
theorem C2_image_token_strip_witness :
    ((['I', 'M', 'a', 'G', 'e'] : List Char).map Char.toLower = ['i', 'm', 'a', 'g', 'e']) ∧
    ((sendMessage baseEnv okSession
        ⟨String.mk ('/' :: (['I', 'M', 'a', 'G', 'e'] ++ "  a cat ".data)),
          some "c", none, none⟩).2.2 =
      [ModelCall.imageGen (jsTrim (String.mk ("  a cat ".data.dropWhile Char.isWhitespace)))] ∧
     (sendMessage baseEnv okSession
        ⟨String.mk ('/' :: (['I', 'M', 'a', 'G', 'e'] ++ "  a cat ".data)),
          some "c", none, none⟩).2.1.head? =
      some (.msgInsert (String.mk ('/' :: (['I', 'M', 'a', 'G', 'e'] ++ "  a cat ".data)))
        "user" "image_prompt" "u" (some "c"))) :=
  ⟨by decide, C2_image_token_strip ['I', 'M', 'a', 'G', 'e'] "  a cat ".data (by decide)⟩

end ChatCore
